import Mathlib

/-!
Shallow embedding of the gesture-detection core of
drivers/input/touchscreen/fts521/fts_lib/ftsGesture.c.

Machine `int` values are modelled as `Int`; `u8` bytes and array indices
as `Nat`.  The fixed-size byte arrays (`gesture_mask`,
`gesture_coordinates_x/y`, the local `val` payload buffer) are modelled
as total functions `Nat → Nat`; every operation writes only indices that
are in bounds in the source, which is stated and proved explicitly where
a claim is about bounds.  External collaborators (`setFeatures`,
`fts_disableInterrupt`, `fts_enableInterrupt`, `setScanMode`,
`fts_writeReadU8UX`) are modelled as oracle result codes passed in as
parameters, together with an explicit call-count trace where a claim is
about which collaborators ran.
-/

/-- Result code for success. Modelled from the spec: `OK` comes from the
driver headers, which are not under the sources provided; the spec and the
source agree that errors are the negative codes (`res < OK`). -/
def OK : Int := 0

/-- Modelled from the spec: `ERROR_OP_NOT_ALLOW` comes from ftsError.h,
not under the sources provided; it is the single 32-bit negative code
(0x80000005 as a signed int) the source returns for invalid arguments,
invalid selectors and invalid events, and also the "unavailable" sentinel
stored in `gesture_coords_reported`. -/
def ERROR_OP_NOT_ALLOW : Int := -2147483643

/-- Modelled from the spec: `ERROR_DISABLE_INTER` from ftsError.h
(0x80000200 as a signed int), OR-composed into the result when
interrupt-disable fails. -/
def ERROR_DISABLE_INTER : Int := -2147483136

/-- Modelled from the spec: `ERROR_ENABLE_INTER` from ftsError.h
(0x80000100 as a signed int), OR-composed into the result when
interrupt-enable fails. -/
def ERROR_ENABLE_INTER : Int := -2147483392

/-- Modelled from the spec: the recognized enable selector
(`FEAT_ENABLE` from the driver headers, not under the sources provided). -/
def FEAT_ENABLE : Int := 1

/-- Modelled from the spec: the recognized disable selector
(`FEAT_DISABLE` from the driver headers, not under the sources provided). -/
def FEAT_DISABLE : Int := 0

/-- Modelled from the spec: capacity in bytes of the gesture mask
(`GESTURE_MASK_SIZE` from the driver headers). -/
def GESTURE_MASK_SIZE : Int := 4

/-- Modelled from the spec: capacity in pairs of the coordinate buffers
(`GESTURE_MAX_COORDS_PAIRS_REPORT` from the driver headers). -/
def GESTURE_MAX_COORDS_PAIRS_REPORT : Int := 100

/-- Modelled from the spec: the user-report tag expected in byte 0 of a
gesture event (`EVT_ID_USER_REPORT` from ftsSoftware.h). -/
def EVT_ID_USER_REPORT : Nat := 83

/-- Modelled from the spec: the user-gesture tag expected in byte 1 of a
gesture event (`EVT_TYPE_USER_GESTURE` from ftsSoftware.h). -/
def EVT_TYPE_USER_GESTURE : Nat := 2

/-- A signed 32-bit value reinterpreted as its unsigned bit pattern. -/
def toU32 (x : Int) : Nat := (x % 4294967296).toNat

/-- An unsigned 32-bit bit pattern reinterpreted as a signed value. -/
def ofU32 (n : Nat) : Int :=
  if n < 2147483648 then (n : Int) else (n : Int) - 4294967296

/-- Bitwise OR of two C `int` values (the `|` the source uses to compose
error codes). -/
def orI32 (a b : Int) : Int := ofU32 (toU32 a ||| toU32 b)

/-- The mutable module state of ftsGesture.c: the armed-gesture bitmask,
the two coordinate arrays, the reported pair count, and the refresh flag. -/
structure GestureState where
  gesture_mask : Nat → Nat
  gesture_coordinates_x : Nat → Nat
  gesture_coordinates_y : Nat → Nat
  gesture_coords_reported : Int
  refreshGestureMask : Nat

/-- `updateGestureMask(mask, size, en)` (ftsGesture.c lines 69-138).
`mask = none` models a NULL pointer.  On the enable selector the first
`size` mask bytes are OR-ed into the state; on the disable selector each
covered byte becomes `(old XOR delta) AND old`; anything else, a NULL
mask or an oversized `size` returns `ERROR_OP_NOT_ALLOW` and leaves the
state untouched.  Both success paths set `refreshGestureMask`. -/
def updateGestureMask (st : GestureState) (mask : Option (Nat → Nat))
    (size : Int) (en : Int) : Int × GestureState :=
  match mask with
  | none => (ERROR_OP_NOT_ALLOW, st)
  | some m =>
    if size ≤ GESTURE_MASK_SIZE then
      if en = FEAT_ENABLE then
        (OK, { st with
          gesture_mask := fun i =>
            if (i : Int) < size then st.gesture_mask i ||| m i
            else st.gesture_mask i,
          refreshGestureMask := 1 })
      else if en = FEAT_DISABLE then
        (OK, { st with
          gesture_mask := fun i =>
            if (i : Int) < size then
              (st.gesture_mask i ^^^ m i) &&& st.gesture_mask i
            else st.gesture_mask i,
          refreshGestureMask := 1 })
      else (ERROR_OP_NOT_ALLOW, st)
    else (ERROR_OP_NOT_ALLOW, st)

/-- A concrete all-zero state used by the concrete witnesses below. -/
def stZero : GestureState :=
  ⟨fun _ => 0, fun _ => 0, fun _ => 0, ERROR_OP_NOT_ALLOW, 0⟩

/-- A concrete all-0xFF delta. -/
def dFF : Nat → Nat := fun _ => 255

/-- C2: updateGestureMask with the enable selector, a non-null delta and
0 ≤ size ≤ GESTURE_MASK_SIZE returns OK, every bit set in the first
`size` delta bytes becomes set in the mask, every previously set bit
stays set, and mask bytes at indices ≥ size are unchanged. -/
theorem C2_enable_or_semantics (st : GestureState) (m : Nat → Nat)
    (size : Int) (h0 : 0 ≤ size) (h1 : size ≤ GESTURE_MASK_SIZE) :
    (updateGestureMask st (some m) size FEAT_ENABLE).1 = OK ∧
    (∀ i j : Nat, (i : Int) < size →
      ((m i).testBit j = true →
        ((updateGestureMask st (some m) size FEAT_ENABLE).2.gesture_mask i).testBit j
          = true) ∧
      ((st.gesture_mask i).testBit j = true →
        ((updateGestureMask st (some m) size FEAT_ENABLE).2.gesture_mask i).testBit j
          = true)) ∧
    (∀ i : Nat, size ≤ (i : Int) →
      (updateGestureMask st (some m) size FEAT_ENABLE).2.gesture_mask i
        = st.gesture_mask i) := by
  simp only [updateGestureMask, if_pos h1, eq_self_iff_true, if_true]
  refine ⟨by trivial, ?_, ?_⟩
  · intro i j hi
    simp only [if_pos hi, Nat.testBit_lor]
    constructor
    · intro h; simp [h]
    · intro h; simp [h]
  · intro i hi
    simp only [if_neg (not_lt.mpr hi)]

/-- Witness for C2 at a concrete state, delta and size. -/
theorem C2_enable_or_witness :
    (0 : Int) ≤ 4 ∧ (4 : Int) ≤ GESTURE_MASK_SIZE ∧
    ((updateGestureMask stZero (some dFF) 4 FEAT_ENABLE).1 = OK ∧
     (∀ i j : Nat, (i : Int) < 4 →
       ((dFF i).testBit j = true →
         ((updateGestureMask stZero (some dFF) 4 FEAT_ENABLE).2.gesture_mask i).testBit j
           = true) ∧
       ((stZero.gesture_mask i).testBit j = true →
         ((updateGestureMask stZero (some dFF) 4 FEAT_ENABLE).2.gesture_mask i).testBit j
           = true)) ∧
     (∀ i : Nat, (4 : Int) ≤ (i : Int) →
       (updateGestureMask stZero (some dFF) 4 FEAT_ENABLE).2.gesture_mask i
         = stZero.gesture_mask i)) :=
  ⟨by decide, by decide,
    C2_enable_or_semantics stZero dFF 4 (by decide) (by decide)⟩

/-- C3: updateGestureMask with the disable selector computes, on each
covered byte, exactly old AND NOT delta (bitwise), and leaves bytes at
indices ≥ size unchanged, returning OK. -/
theorem C3_disable_clear_semantics (st : GestureState) (m : Nat → Nat)
    (size : Int) (h0 : 0 ≤ size) (h1 : size ≤ GESTURE_MASK_SIZE) :
    (updateGestureMask st (some m) size FEAT_DISABLE).1 = OK ∧
    (∀ i j : Nat, (i : Int) < size →
      ((updateGestureMask st (some m) size FEAT_DISABLE).2.gesture_mask i).testBit j
        = ((st.gesture_mask i).testBit j && !((m i).testBit j))) ∧
    (∀ i : Nat, size ≤ (i : Int) →
      (updateGestureMask st (some m) size FEAT_DISABLE).2.gesture_mask i
        = st.gesture_mask i) := by
  have hne : FEAT_DISABLE ≠ FEAT_ENABLE := by decide
  simp only [updateGestureMask, if_pos h1, if_neg hne, eq_self_iff_true, if_true]
  refine ⟨by trivial, ?_, ?_⟩
  · intro i j hi
    simp only [if_pos hi, Nat.testBit_land, Nat.testBit_xor]
    cases hm : (st.gesture_mask i).testBit j <;>
      cases hd : (m i).testBit j <;> simp [hm, hd]
  · intro i hi
    simp only [if_neg (not_lt.mpr hi)]

/-- Witness for C3 at a concrete state, delta and size. -/
theorem C3_disable_clear_witness :
    (0 : Int) ≤ 4 ∧ (4 : Int) ≤ GESTURE_MASK_SIZE ∧
    ((updateGestureMask stZero (some dFF) 4 FEAT_DISABLE).1 = OK ∧
     (∀ i j : Nat, (i : Int) < 4 →
       ((updateGestureMask stZero (some dFF) 4 FEAT_DISABLE).2.gesture_mask i).testBit j
         = ((stZero.gesture_mask i).testBit j && !((dFF i).testBit j))) ∧
     (∀ i : Nat, (4 : Int) ≤ (i : Int) →
       (updateGestureMask stZero (some dFF) 4 FEAT_DISABLE).2.gesture_mask i
         = stZero.gesture_mask i)) :=
  ⟨by decide, by decide,
    C3_disable_clear_semantics stZero dFF 4 (by decide) (by decide)⟩

/-- C10: for a non-null delta, any size ≤ 0 (including negative) and a
recognized selector, updateGestureMask returns OK, changes no mask byte,
and still sets the refresh flag. -/
theorem C10_nonpositive_size_ok (st : GestureState) (m : Nat → Nat)
    (size en : Int) (hsz : size ≤ 0)
    (hen : en = FEAT_ENABLE ∨ en = FEAT_DISABLE) :
    (updateGestureMask st (some m) size en).1 = OK ∧
    (∀ i : Nat, (updateGestureMask st (some m) size en).2.gesture_mask i
      = st.gesture_mask i) ∧
    (updateGestureMask st (some m) size en).2.refreshGestureMask = 1 := by
  have h1 : size ≤ GESTURE_MASK_SIZE := le_trans hsz (by decide)
  have hno : ∀ i : Nat, ¬ ((i : Int) < size) := by
    intro i
    exact not_lt.mpr (le_trans hsz (Int.ofNat_nonneg i))
  rcases hen with hen | hen
  · subst hen
    simp only [updateGestureMask, if_pos h1, eq_self_iff_true, if_true]
    exact ⟨by trivial, fun i => by simp only [if_neg (hno i)], by trivial⟩
  · subst hen
    have hne : FEAT_DISABLE ≠ FEAT_ENABLE := by decide
    simp only [updateGestureMask, if_pos h1, if_neg hne, eq_self_iff_true, if_true]
    exact ⟨by trivial, fun i => by simp only [if_neg (hno i)], by trivial⟩

/-- Witness for C10 at a concrete state, delta and negative size. -/
theorem C10_nonpositive_size_witness :
    (-3 : Int) ≤ 0 ∧
    ((-3 : Int) = FEAT_ENABLE ∨ (FEAT_ENABLE = FEAT_ENABLE ∨ FEAT_ENABLE = FEAT_DISABLE)) ∧
    ((updateGestureMask stZero (some dFF) (-3) FEAT_ENABLE).1 = OK ∧
     (∀ i : Nat, (updateGestureMask stZero (some dFF) (-3) FEAT_ENABLE).2.gesture_mask i
       = stZero.gesture_mask i) ∧
     (updateGestureMask stZero (some dFF) (-3) FEAT_ENABLE).2.refreshGestureMask = 1) :=
  ⟨by decide, Or.inr (Or.inl rfl),
    C10_nonpositive_size_ok stZero dFF (-3) FEAT_ENABLE (by decide) (Or.inl rfl)⟩

/-- Result of one `readGestureCoords` call: the returned code, the updated
module state, and the framebuffer read request (address, byte count) that
was issued to `fts_writeReadU8UX`, if any. -/
structure GestureDecodeOut where
  res : Int
  st : GestureState
  readReq : Option (Nat × Int)

/-- The clamp the source applies to the pair count read from `event[5]`
(ftsGesture.c lines 346-356): values above
`GESTURE_MAX_COORDS_PAIRS_REPORT` are decreased to that capacity. -/
def clampedPairs (n : Nat) : Int :=
  if GESTURE_MAX_COORDS_PAIRS_REPORT < (n : Int) then
    GESTURE_MAX_COORDS_PAIRS_REPORT
  else (n : Int)

/-- `readGestureCoords(event)` (ftsGesture.c lines 332-398).  `event` is
the event byte array, `fbRes` the result code of the framebuffer read and
`val` the bytes it returns on success (the read is an external
collaborator).  On a tag mismatch the function returns
`ERROR_OP_NOT_ALLOW` without touching the state; on a failed read it
stores the `ERROR_OP_NOT_ALLOW` sentinel into `gesture_coords_reported`
and returns the read's error; on success it stores the clamped pair count
and unpacks the 12-bit X/Y values exactly as the source does. -/
def readGestureCoords (st : GestureState) (event : Nat → Nat) (fbRes : Int)
    (val : Nat → Nat) : GestureDecodeOut :=
  if event 0 = EVT_ID_USER_REPORT ∧ event 1 = EVT_TYPE_USER_GESTURE then
    let address := event 4 <<< 8 ||| event 3
    let reported := clampedPairs (event 5)
    let req := (address, reported * 2 * 2)
    if fbRes < OK then
      ⟨fbRes, { st with gesture_coords_reported := ERROR_OP_NOT_ALLOW },
        some req⟩
    else
      let n := reported.toNat
      ⟨OK,
        { st with
          gesture_coords_reported := reported,
          gesture_coordinates_x := fun i =>
            if i < n then
              (val (i * 2 + 1) &&& 15) <<< 8 ||| (val (i * 2) &&& 255)
            else st.gesture_coordinates_x i,
          gesture_coordinates_y := fun i =>
            if i < n then
              (val (n * 2 + i * 2 + 1) &&& 15) <<< 8 |||
                (val (n * 2 + i * 2) &&& 255)
            else st.gesture_coordinates_y i },
        some req⟩
  else ⟨ERROR_OP_NOT_ALLOW, st, none⟩

/-- Masking a byte with 15 keeps its low nibble. -/
theorem land_fifteen_eq_mod (a : Nat) : a &&& 15 = a % 16 := by
  apply Nat.eq_of_testBit_eq
  intro j
  have h15 : (15 : Nat) = 2 ^ 4 - 1 := by norm_num
  have h16 : (16 : Nat) = 2 ^ 4 := by norm_num
  rw [Nat.testBit_land, h15, Nat.testBit_two_pow_sub_one, h16,
    Nat.testBit_mod_two_pow, Bool.and_comm]

/-- Masking a byte with 255 keeps its low eight bits. -/
theorem land_255_eq_mod (a : Nat) : a &&& 255 = a % 256 := by
  apply Nat.eq_of_testBit_eq
  intro j
  have h255 : (255 : Nat) = 2 ^ 8 - 1 := by norm_num
  have h256 : (256 : Nat) = 2 ^ 8 := by norm_num
  rw [Nat.testBit_land, h255, Nat.testBit_two_pow_sub_one, h256,
    Nat.testBit_mod_two_pow, Bool.and_comm]

set_option maxRecDepth 8192 in
/-- Packing a nibble above a byte by shift-and-or is plain arithmetic. -/
theorem pack_small : ∀ c : Nat, c < 16 → ∀ d : Nat, d < 256 →
    c <<< 8 ||| d = c * 256 + d := by decide

/-- The 12-bit unpacking expression of the source, rephrased
arithmetically: low byte plus 256 times the low nibble of the high byte. -/
theorem pack12_eq (a b : Nat) :
    (a &&& 15) <<< 8 ||| (b &&& 255) = a % 16 * 256 + b % 256 := by
  rw [land_fifteen_eq_mod, land_255_eq_mod]
  exact pack_small (a % 16) (Nat.mod_lt a (by norm_num)) (b % 256)
    (Nat.mod_lt b (by norm_num))

/-- A concrete state carrying a stale positive pair count from an earlier
successful decode. -/
def stStale : GestureState := ⟨fun _ => 0, fun _ => 0, fun _ => 0, 3, 0⟩

/-- A concrete event whose header tags both mismatch. -/
def evBad : Nat → Nat := fun _ => 0

/-- An all-zero framebuffer payload. -/
def valZero : Nat → Nat := fun _ => 0

/-- C1 counterexample: a mismatched-header event decoded in a state whose
reported count is 3 returns the InvalidEvent error but leaves the count
at 3, a stale positive value, not at the unavailable sentinel. -/
theorem C1_counterexample :
    (readGestureCoords stStale evBad 0 valZero).res = ERROR_OP_NOT_ALLOW ∧
    (readGestureCoords stStale evBad 0 valZero).st.gesture_coords_reported = 3 ∧
    (3 : Int) ≠ ERROR_OP_NOT_ALLOW ∧ (0 : Int) < 3 := by
  refine ⟨?_, ?_, by decide, by decide⟩
  · rfl
  · rfl

/-- C1 (amended): on a mismatched-header event readGestureCoords returns
ERROR_OP_NOT_ALLOW and leaves the whole state unchanged, so the reported
count keeps whatever value it had; the sentinel reset happens only on a
failed framebuffer read. -/
theorem C1_header_mismatch_state_unchanged (st : GestureState)
    (event : Nat → Nat) (fbRes : Int) (val : Nat → Nat)
    (h : event 0 ≠ EVT_ID_USER_REPORT ∨ event 1 ≠ EVT_TYPE_USER_GESTURE) :
    (readGestureCoords st event fbRes val).res = ERROR_OP_NOT_ALLOW ∧
    (readGestureCoords st event fbRes val).st = st ∧
    (readGestureCoords st event fbRes val).readReq = none := by
  have hno : ¬ (event 0 = EVT_ID_USER_REPORT ∧ event 1 = EVT_TYPE_USER_GESTURE) := by
    tauto
  simp only [readGestureCoords, if_neg hno]
  exact ⟨by trivial, by trivial, by trivial⟩

/-- Witness for the amended C1 at a concrete mismatched event. -/
theorem C1_header_mismatch_witness :
    (evBad 0 ≠ EVT_ID_USER_REPORT ∨ evBad 1 ≠ EVT_TYPE_USER_GESTURE) ∧
    ((readGestureCoords stStale evBad 0 valZero).res = ERROR_OP_NOT_ALLOW ∧
     (readGestureCoords stStale evBad 0 valZero).st = stStale ∧
     (readGestureCoords stStale evBad 0 valZero).readReq = none) :=
  ⟨Or.inl (by decide),
    C1_header_mismatch_state_unchanged stStale evBad 0 valZero
      (Or.inl (by decide))⟩

/-- C4: a well-formed event whose pair-count byte exceeds the capacity is
clamped to the capacity before the framebuffer read; the issued read is
count*4 bytes long, and every index the unpacking loop uses is strictly
below the capacity of the coordinate arrays (for the X/Y indices) and of
the 4*capacity local payload buffer (for the payload indices). -/
theorem C4_overreport_clamped (st : GestureState) (event : Nat → Nat)
    (fbRes : Int) (val : Nat → Nat)
    (h0 : event 0 = EVT_ID_USER_REPORT) (h1 : event 1 = EVT_TYPE_USER_GESTURE)
    (hover : GESTURE_MAX_COORDS_PAIRS_REPORT < (event 5 : Int))
    (hread : ¬ fbRes < OK) :
    (readGestureCoords st event fbRes val).st.gesture_coords_reported
      = GESTURE_MAX_COORDS_PAIRS_REPORT ∧
    (readGestureCoords st event fbRes val).readReq
      = some (event 4 <<< 8 ||| event 3, GESTURE_MAX_COORDS_PAIRS_REPORT * 4) ∧
    (∀ i : Nat, i < GESTURE_MAX_COORDS_PAIRS_REPORT.toNat →
      i < GESTURE_MAX_COORDS_PAIRS_REPORT.toNat ∧
      i * 2 + 1 < 4 * GESTURE_MAX_COORDS_PAIRS_REPORT.toNat ∧
      GESTURE_MAX_COORDS_PAIRS_REPORT.toNat * 2 + i * 2 + 1
        < 4 * GESTURE_MAX_COORDS_PAIRS_REPORT.toNat) := by
  have htag : event 0 = EVT_ID_USER_REPORT ∧ event 1 = EVT_TYPE_USER_GESTURE :=
    ⟨h0, h1⟩
  have hclamp : clampedPairs (event 5) = GESTURE_MAX_COORDS_PAIRS_REPORT := by
    simp only [clampedPairs, if_pos hover]
  simp only [readGestureCoords, if_pos htag, if_neg hread, hclamp]
  refine ⟨by trivial, by norm_num [GESTURE_MAX_COORDS_PAIRS_REPORT], ?_⟩
  intro i hi
  refine ⟨hi, ?_, ?_⟩ <;>
    simp only [GESTURE_MAX_COORDS_PAIRS_REPORT] at hi ⊢ <;> omega

/-- A concrete well-formed event over-reporting 105 pairs. -/
def evOver : Nat → Nat := fun i =>
  if i = 0 then EVT_ID_USER_REPORT else
  if i = 1 then EVT_TYPE_USER_GESTURE else
  if i = 5 then 105 else 0

/-- Witness for C4 at a concrete over-reporting event. -/
theorem C4_overreport_witness :
    evOver 0 = EVT_ID_USER_REPORT ∧ evOver 1 = EVT_TYPE_USER_GESTURE ∧
    GESTURE_MAX_COORDS_PAIRS_REPORT < ((evOver 5 : Nat) : Int) ∧
    ¬ (0 : Int) < OK ∧
    ((readGestureCoords stZero evOver 0 valZero).st.gesture_coords_reported
       = GESTURE_MAX_COORDS_PAIRS_REPORT ∧
     (readGestureCoords stZero evOver 0 valZero).readReq
       = some (evOver 4 <<< 8 ||| evOver 3, GESTURE_MAX_COORDS_PAIRS_REPORT * 4) ∧
     (∀ i : Nat, i < GESTURE_MAX_COORDS_PAIRS_REPORT.toNat →
       i < GESTURE_MAX_COORDS_PAIRS_REPORT.toNat ∧
       i * 2 + 1 < 4 * GESTURE_MAX_COORDS_PAIRS_REPORT.toNat ∧
       GESTURE_MAX_COORDS_PAIRS_REPORT.toNat * 2 + i * 2 + 1
         < 4 * GESTURE_MAX_COORDS_PAIRS_REPORT.toNat)) :=
  ⟨by decide, by decide, by decide, by decide,
    C4_overreport_clamped stZero evOver 0 valZero (by decide) (by decide)
      (by decide) (by decide)⟩

/-- C5: on a successful decode, the X value at index i equals the 12-bit
value formed from payload byte 2i (low 8 bits) and the low nibble of
payload byte 2i+1 (high 4 bits), and the Y value is formed identically
from payload bytes count*2+2i and count*2+2i+1. -/
theorem C5_coord_unpacking (st : GestureState) (event : Nat → Nat)
    (fbRes : Int) (val : Nat → Nat)
    (h0 : event 0 = EVT_ID_USER_REPORT) (h1 : event 1 = EVT_TYPE_USER_GESTURE)
    (hread : ¬ fbRes < OK) (i : Nat)
    (hi : i < (clampedPairs (event 5)).toNat) :
    (readGestureCoords st event fbRes val).st.gesture_coordinates_x i
      = val (i * 2 + 1) % 16 * 256 + val (i * 2) % 256 ∧
    (readGestureCoords st event fbRes val).st.gesture_coordinates_y i
      = val ((clampedPairs (event 5)).toNat * 2 + i * 2 + 1) % 16 * 256
        + val ((clampedPairs (event 5)).toNat * 2 + i * 2) % 256 := by
  have htag : event 0 = EVT_ID_USER_REPORT ∧ event 1 = EVT_TYPE_USER_GESTURE :=
    ⟨h0, h1⟩
  simp only [readGestureCoords, if_pos htag, if_neg hread]
  constructor
  · simp only [if_pos hi]
    exact pack12_eq (val (i * 2 + 1)) (val (i * 2))
  · simp only [if_pos hi]
    exact pack12_eq (val ((clampedPairs (event 5)).toNat * 2 + i * 2 + 1))
      (val ((clampedPairs (event 5)).toNat * 2 + i * 2))

/-- A concrete well-formed event reporting one pair. -/
def evOne : Nat → Nat := fun i =>
  if i = 0 then EVT_ID_USER_REPORT else
  if i = 1 then EVT_TYPE_USER_GESTURE else
  if i = 5 then 1 else 0

/-- A concrete payload whose X slot holds bytes 0x34, 0x01. -/
def valPack : Nat → Nat := fun i =>
  if i = 0 then 52 else if i = 1 then 1 else 0

/-- Witness for C5: payload bytes 0x34, 0x01 at the X slot decode to
0x134 = 308. -/
theorem C5_coord_unpacking_witness :
    evOne 0 = EVT_ID_USER_REPORT ∧ evOne 1 = EVT_TYPE_USER_GESTURE ∧
    ¬ (0 : Int) < OK ∧ 0 < (clampedPairs (evOne 5)).toNat ∧
    ((readGestureCoords stZero evOne 0 valPack).st.gesture_coordinates_x 0
       = valPack (0 * 2 + 1) % 16 * 256 + valPack (0 * 2) % 256 ∧
     (readGestureCoords stZero evOne 0 valPack).st.gesture_coordinates_y 0
       = valPack ((clampedPairs (evOne 5)).toNat * 2 + 0 * 2 + 1) % 16 * 256
         + valPack ((clampedPairs (evOne 5)).toNat * 2 + 0 * 2) % 256) ∧
    valPack (0 * 2 + 1) % 16 * 256 + valPack (0 * 2) % 256 = 308 :=
  ⟨by decide, by decide, by decide, by decide,
    C5_coord_unpacking stZero evOne 0 valPack (by decide) (by decide)
      (by decide) 0 (by decide),
    by decide⟩

/-- `enableGesture(mask, size)` (ftsGesture.c lines 151-184).  The
`setFeatures` transmission is an external collaborator, modelled by its
result code.  A non-null mask is OR-ed into the state first; note the
source never touches `refreshGestureMask` here. -/
def enableGesture (st : GestureState) (mask : Option (Nat → Nat))
    (size : Int) (setFeaturesRes : Int) : Int × GestureState :=
  if size ≤ GESTURE_MASK_SIZE then
    let st1 :=
      match mask with
      | some m =>
        { st with
          gesture_mask := fun i =>
            if (i : Int) < size then st.gesture_mask i ||| m i
            else st.gesture_mask i }
      | none => st
    if setFeaturesRes < OK then (setFeaturesRes, st1) else (OK, st1)
  else (ERROR_OP_NOT_ALLOW, st)

/-- Result codes of the four external collaborators of
`enterGestureMode`: interrupt disable, the `setFeatures` transmission
inside `enableGesture`, the scan-mode command, and interrupt enable. -/
structure Collab where
  disableIntRes : Int
  setFeaturesRes : Int
  scanModeRes : Int
  enableIntRes : Int

/-- How many times each collaborator was invoked during one
`enterGestureMode` run. -/
structure CallCounts where
  disableInt : Nat
  setFeatures : Nat
  scanMode : Nat
  enableInt : Nat

/-- The `END:` tail of `enterGestureMode` (ftsGesture.c lines 285-295):
re-enable interrupts and OR the enable error into the result when the
enable fails. -/
def gestureModeEnd (res : Int) (st : GestureState) (cnt : CallCounts)
    (c : Collab) : Int × GestureState × CallCounts :=
  let cnt1 := { cnt with enableInt := cnt.enableInt + 1 }
  if c.enableIntRes < OK then
    (orI32 res (orI32 c.enableIntRes ERROR_ENABLE_INTER), st, cnt1)
  else (res, st, cnt1)

/-- The scan-mode step of `enterGestureMode` (ftsGesture.c lines
276-284): issue the low-power scan-mode command, keep its error when it
fails, otherwise continue with OK, then fall through to `END`. -/
def gestureModeScan (st : GestureState) (cnt : CallCounts) (c : Collab) :
    Int × GestureState × CallCounts :=
  let cnt1 := { cnt with scanMode := cnt.scanMode + 1 }
  if c.scanModeRes < OK then gestureModeEnd c.scanModeRes st cnt1 c
  else gestureModeEnd OK st cnt1 c

/-- `enterGestureMode(reload)` (ftsGesture.c lines 252-296): disable
interrupts (returning the OR-composed error immediately on failure),
optionally push the current mask via `enableGesture(NULL, 0)` and clear
the refresh flag on success, issue the scan-mode command, and always run
the `END` interrupt-re-enable tail once the disable succeeded. -/
def enterGestureMode (st : GestureState) (reload : Int) (c : Collab) :
    Int × GestureState × CallCounts :=
  if c.disableIntRes < OK then
    (orI32 c.disableIntRes ERROR_DISABLE_INTER, st, ⟨1, 0, 0, 0⟩)
  else if reload = 1 ∨ st.refreshGestureMask = 1 then
    let out := enableGesture st none 0 c.setFeaturesRes
    if out.1 < OK then gestureModeEnd out.1 out.2 ⟨1, 1, 0, 0⟩ c
    else gestureModeScan { out.2 with refreshGestureMask := 0 } ⟨1, 1, 0, 0⟩ c
  else gestureModeScan st ⟨1, 0, 0, 0⟩ c

/-- The END tail never changes the module state and bumps the
interrupt-enable count exactly once. -/
theorem gestureModeEnd_state (res : Int) (st : GestureState)
    (cnt : CallCounts) (c : Collab) :
    (gestureModeEnd res st cnt c).2.1 = st ∧
    (gestureModeEnd res st cnt c).2.2.enableInt = cnt.enableInt + 1 := by
  unfold gestureModeEnd
  split <;> exact ⟨rfl, rfl⟩

/-- The scan step never changes the module state and bumps the
interrupt-enable count exactly once. -/
theorem gestureModeScan_state (st : GestureState) (cnt : CallCounts)
    (c : Collab) :
    (gestureModeScan st cnt c).2.1 = st ∧
    (gestureModeScan st cnt c).2.2.enableInt = cnt.enableInt + 1 := by
  unfold gestureModeScan
  split <;> exact gestureModeEnd_state _ _ _ _

/-- With a non-failing setFeatures result, pushing the current mask via
enableGesture(NULL, 0) returns OK and changes nothing. -/
theorem enableGesture_null_ok (st : GestureState) (r : Int)
    (h : ¬ r < OK) :
    enableGesture st none 0 r = (OK, st) := by
  unfold enableGesture
  rw [if_pos (by decide : (0 : Int) ≤ GESTURE_MASK_SIZE), if_neg h]

/-- With a failing setFeatures result, pushing the current mask via
enableGesture(NULL, 0) returns that error and changes nothing. -/
theorem enableGesture_null_err (st : GestureState) (r : Int)
    (h : r < OK) :
    enableGesture st none 0 r = (r, st) := by
  unfold enableGesture
  rw [if_pos (by decide : (0 : Int) ≤ GESTURE_MASK_SIZE), if_pos h]

/-- C6: when interrupt-disable fails, enterGestureMode returns the
disable error OR-composed with ERROR_DISABLE_INTER, makes no setFeatures
call, no scan-mode call and no interrupt-enable call, and leaves the
state (mask and refresh flag included) unchanged. -/
theorem C6_disable_fail_short_circuit (st : GestureState) (reload : Int)
    (c : Collab) (h : c.disableIntRes < OK) :
    (enterGestureMode st reload c).1
      = orI32 c.disableIntRes ERROR_DISABLE_INTER ∧
    (enterGestureMode st reload c).2.1 = st ∧
    (enterGestureMode st reload c).2.2 = ⟨1, 0, 0, 0⟩ := by
  simp only [enterGestureMode, if_pos h]
  exact ⟨by trivial, by trivial, by trivial⟩

/-- A concrete collaborator assignment whose interrupt-disable fails. -/
def cDisFail : Collab := ⟨-1, 0, 0, 0⟩

/-- Witness for C6 at a concrete failing interrupt-disable. -/
theorem C6_disable_fail_witness :
    cDisFail.disableIntRes < OK ∧
    ((enterGestureMode stZero 0 cDisFail).1
       = orI32 cDisFail.disableIntRes ERROR_DISABLE_INTER ∧
     (enterGestureMode stZero 0 cDisFail).2.1 = stZero ∧
     (enterGestureMode stZero 0 cDisFail).2.2 = ⟨1, 0, 0, 0⟩) :=
  ⟨by decide, C6_disable_fail_short_circuit stZero 0 cDisFail (by decide)⟩

/-- C7: once interrupt-disable succeeded, the interrupt-enable
collaborator runs exactly once on every path; and when the scan-mode
command fails while the mask push and both interrupt calls succeed, the
returned error is exactly the scan-mode failure code. -/
theorem C7_enable_always_restored (st : GestureState) (reload : Int)
    (c : Collab) (hdis : ¬ c.disableIntRes < OK) :
    (enterGestureMode st reload c).2.2.enableInt = 1 ∧
    (¬ c.setFeaturesRes < OK → ¬ c.enableIntRes < OK →
      c.scanModeRes < OK →
      (enterGestureMode st reload c).1 = c.scanModeRes) := by
  constructor
  · simp only [enterGestureMode, if_neg hdis]
    split
    · split
      · exact (gestureModeEnd_state _ _ _ _).2
      · exact (gestureModeScan_state _ _ _).2
    · exact (gestureModeScan_state _ _ _).2
  · intro hsf hen hscan
    simp only [enterGestureMode, if_neg hdis]
    split
    · rw [enableGesture_null_ok st c.setFeaturesRes hsf]
      simp only [if_neg (by decide : ¬ OK < OK)]
      simp only [gestureModeScan, if_pos hscan, gestureModeEnd, if_neg hen]
    · simp only [gestureModeScan, if_pos hscan, gestureModeEnd, if_neg hen]

/-- A concrete collaborator assignment where only the scan-mode command
fails. -/
def cScanFail : Collab := ⟨0, 0, -7, 0⟩

/-- Witness for C7 at a concrete failing scan-mode command. -/
theorem C7_enable_always_witness :
    ¬ cScanFail.disableIntRes < OK ∧
    ((enterGestureMode stZero 0 cScanFail).2.2.enableInt = 1 ∧
     (¬ cScanFail.setFeaturesRes < OK → ¬ cScanFail.enableIntRes < OK →
       cScanFail.scanModeRes < OK →
       (enterGestureMode stZero 0 cScanFail).1 = cScanFail.scanModeRes)) :=
  ⟨by decide, C7_enable_always_restored stZero 0 cScanFail (by decide)⟩

/-- A concrete all-ones delta. -/
def dOne : Nat → Nat := fun _ => 1

/-- C8 counterexample: enableGesture with a non-null delta ORs the delta
into the mask, but when the transmission fails the refresh flag is still
clear, so the mask changed without the flag being set afterward. -/
theorem C8_counterexample :
    (enableGesture stZero (some dOne) 4 ERROR_OP_NOT_ALLOW).1 < OK ∧
    (enableGesture stZero (some dOne) 4 ERROR_OP_NOT_ALLOW).2.gesture_mask 0 = 1 ∧
    stZero.gesture_mask 0 = 0 ∧
    (enableGesture stZero (some dOne) 4 ERROR_OP_NOT_ALLOW).2.refreshGestureMask
      = 0 := by
  refine ⟨by decide, by decide, by decide, by decide⟩

/-- C8 (amended): updateGestureMask sets the refresh flag whenever it
changed any mask byte, and enterGestureMode ends with the flag cleared
from a set flag only when the setFeatures push succeeded; enableGesture,
however, never sets the flag, even when it changes the mask and the
transmission fails. -/
theorem C8_refresh_flag_amended (st : GestureState)
    (mask : Option (Nat → Nat)) (size en reload : Int) (c : Collab) :
    ((∃ i : Nat, (updateGestureMask st mask size en).2.gesture_mask i
        ≠ st.gesture_mask i) →
      (updateGestureMask st mask size en).2.refreshGestureMask = 1) ∧
    (st.refreshGestureMask = 1 →
      (enterGestureMode st reload c).2.1.refreshGestureMask = 0 →
      ¬ c.setFeaturesRes < OK) := by
  constructor
  · rintro ⟨i, hi⟩
    rcases mask with _ | m
    · exact absurd rfl hi
    · unfold updateGestureMask at hi ⊢
      split_ifs at hi ⊢ <;> first
        | rfl
        | exact absurd rfl hi
  · intro h1 h2 hsf
    by_cases hdis : c.disableIntRes < OK
    · rw [enterGestureMode, if_pos hdis] at h2
      have h2' : st.refreshGestureMask = 0 := h2
      rw [h1] at h2'
      exact absurd h2' (by decide)
    · rw [enterGestureMode, if_neg hdis, if_pos (Or.inr h1),
        enableGesture_null_err st c.setFeaturesRes hsf] at h2
      rw [if_pos (show (c.setFeaturesRes, st).1 < OK from hsf)] at h2
      have h2' : st.refreshGestureMask = 0 :=
        ((gestureModeEnd_state c.setFeaturesRes st ⟨1, 1, 0, 0⟩ c).1) ▸ h2
      rw [h1] at h2'
      exact absurd h2' (by decide)

/-- A concrete state whose refresh flag is set. -/
def stFlag : GestureState := ⟨fun _ => 0, fun _ => 0, fun _ => 0, 0, 1⟩

/-- A concrete collaborator assignment where every step succeeds. -/
def cAllOk : Collab := ⟨0, 0, 0, 0⟩

/-- Witness for the amended C8: a concrete mask change through
updateGestureMask sets the flag, and a concrete successful
enterGestureMode run clears a set flag with a succeeding push. -/
theorem C8_refresh_flag_witness :
    ((updateGestureMask stZero (some dOne) 4 FEAT_ENABLE).2.gesture_mask 0
       ≠ stZero.gesture_mask 0 ∧
     (updateGestureMask stZero (some dOne) 4 FEAT_ENABLE).2.refreshGestureMask
       = 1) ∧
    (stFlag.refreshGestureMask = 1 ∧
     (enterGestureMode stFlag 0 cAllOk).2.1.refreshGestureMask = 0 ∧
     ¬ cAllOk.setFeaturesRes < OK) := by
  refine ⟨⟨by decide, ?_⟩, by decide, by decide, ?_⟩
  · exact (C8_refresh_flag_amended stZero (some dOne) 4 FEAT_ENABLE 0 cAllOk).1
      ⟨0, by decide⟩
  · exact (C8_refresh_flag_amended stFlag (some dOne) 4 FEAT_ENABLE 0 cAllOk).2
      (by decide) (by decide)

/-- C9 counterexample: a null delta, an unrecognized selector, an
oversized size and a mismatched-header event all yield the very same
error code, so the error values of these failures are not distinct. -/
theorem C9_counterexample :
    (updateGestureMask stZero none 0 FEAT_ENABLE).1
      = (updateGestureMask stZero (some dOne) 0 7).1 ∧
    (updateGestureMask stZero none 0 FEAT_ENABLE).1
      = (updateGestureMask stZero (some dOne) 5 FEAT_ENABLE).1 ∧
    (updateGestureMask stZero none 0 FEAT_ENABLE).1
      = (readGestureCoords stZero evBad 0 valZero).res := by
  refine ⟨by decide, by decide, by decide⟩

/-- C9 (amended): every listed failure returns an error value
distinguishable from OK, but they all return the same code
ERROR_OP_NOT_ALLOW: a null delta, an oversized size and an unrecognized
selector in updateGestureMask, and a header mismatch in
readGestureCoords, are not distinguishable from one another. -/
theorem C9_error_codes_amended (st st2 : GestureState) (m : Nat → Nat)
    (size en : Int) (event : Nat → Nat) (fbRes : Int) (val : Nat → Nat) :
    (updateGestureMask st none size en).1 = ERROR_OP_NOT_ALLOW ∧
    (GESTURE_MASK_SIZE < size →
      (updateGestureMask st (some m) size en).1 = ERROR_OP_NOT_ALLOW) ∧
    (en ≠ FEAT_ENABLE → en ≠ FEAT_DISABLE → size ≤ GESTURE_MASK_SIZE →
      (updateGestureMask st (some m) size en).1 = ERROR_OP_NOT_ALLOW) ∧
    (event 0 ≠ EVT_ID_USER_REPORT →
      (readGestureCoords st2 event fbRes val).res = ERROR_OP_NOT_ALLOW) ∧
    ERROR_OP_NOT_ALLOW ≠ OK := by
  refine ⟨rfl, ?_, ?_, ?_, by decide⟩
  · intro hsz
    simp only [updateGestureMask, if_neg (not_le.mpr hsz)]
  · intro hen1 hen2 hsz
    simp only [updateGestureMask, if_pos hsz, if_neg hen1, if_neg hen2]
  · intro hev
    have hno : ¬ (event 0 = EVT_ID_USER_REPORT ∧
        event 1 = EVT_TYPE_USER_GESTURE) := fun hp => hev hp.1
    simp only [readGestureCoords, if_neg hno]

/-- Witness for the amended C9 at concrete failing inputs. -/
theorem C9_error_codes_witness :
    (updateGestureMask stZero none 0 7).1 = ERROR_OP_NOT_ALLOW ∧
    (updateGestureMask stZero (some dOne) 5 7).1 = ERROR_OP_NOT_ALLOW ∧
    (updateGestureMask stZero (some dOne) 0 7).1 = ERROR_OP_NOT_ALLOW ∧
    (readGestureCoords stZero evBad 0 valZero).res = ERROR_OP_NOT_ALLOW ∧
    ERROR_OP_NOT_ALLOW ≠ OK := by
  have hA := C9_error_codes_amended stZero stZero dOne 5 7 evBad 0 valZero
  have hB := C9_error_codes_amended stZero stZero dOne 0 7 evBad 0 valZero
  exact ⟨hB.1, hA.2.1 (by decide),
    hB.2.2.1 (by decide) (by decide) (by decide),
    hA.2.2.2.1 (by decide), hA.2.2.2.2⟩
